import Mathlib

/-!
Verification of the nRF54L15 dual-core test firmware.

Shallow embedding of the cross-core messaging protocol, workload dispatcher,
telemetry formulas and audio pipeline arithmetic found in
src/zephyr_workspace/nrf54l15_dual_core_test/cpuflpr/src/main.c (compute core)
and src/zephyr_workspace/nrf54l15_dual_core_test/cpuapp/src/main.c
(application core).  Machine integers are modelled as Nat / Int with explicit
wrap-around where the C code narrows to a fixed-width type.
-/

namespace NrfDualCore

/-- Wrap of an integer into the int16_t range [-32768, 32767], modelling a C
assignment of a wider integer expression to an int16_t variable
(two-complement truncation, the behaviour of the target). -/
def to_int16 (x : Int) : Int := (x + 32768) % 65536 - 32768

/-- Low 16 bits of an integer as an unsigned value, modelling the C
expression (x & 0xFFFF) on a promoted int16_t. -/
def to_u16 (x : Int) : Nat := (x % 65536).toNat

theorem to_int16_bounds (x : Int) : -32768 ≤ to_int16 x ∧ to_int16 x ≤ 32767 := by
  unfold to_int16
  have h1 : 0 ≤ (x + 32768) % 65536 := Int.emod_nonneg _ (by norm_num)
  have h2 : (x + 32768) % 65536 < 65536 := Int.emod_lt_of_pos _ (by norm_num)
  omega

/-!  Message layout.

struct ipc_message (cpuflpr main.c lines 53-58, __packed):
  uint8_t type; uint8_t workload; uint16_t reserved; uint32_t data[5].

struct stats_data (cpuflpr main.c lines 60-66, __packed):
  uint64_t total_cycles; uint32_t iterations; uint32_t mips;
  uint32_t workload_type; uint32_t cpu_pct.
-/

/-- Size in bytes of struct ipc_message: type, workload, reserved, data[5]. -/
def ipc_message_size : Nat := 1 + 1 + 2 + 5 * 4

/-- Byte offset of the data[] payload inside struct ipc_message. -/
def ipc_data_offset : Nat := 1 + 1 + 2

/-- Size in bytes of the data[] payload (five 32-bit words). -/
def ipc_data_size : Nat := 5 * 4

/-- Size in bytes of struct stats_data: total_cycles(8), iterations(4),
mips(4), workload_type(4), cpu_pct(4). -/
def stats_data_size : Nat := 8 + 4 + 4 + 4 + 4

/-- Byte offset of the cpu_pct field inside struct stats_data. -/
def stats_cpu_pct_offset : Nat := 8 + 4 + 4 + 4

/-!  Audio pipeline arithmetic (cpuflpr main.c). -/

/-- AGC gain computation, cpuflpr main.c lines 303-311 (identical copy at
lines 450-457).  gain is an int16_t initialised to 1; when rms > 0 the code
assigns (2000*256)/(rms+1) (computed in 32-bit int, truncated to int16_t by
the assignment) and then clamps, first above at 512 and then below at 64. -/
def agc_gain (rms : Int) : Int :=
  if rms > 0 then
    let g := to_int16 (Int.tdiv (2000 * 256) (rms + 1))
    if g > 512 then 512 else if g < 64 then 64 else g
  else 1

/-- VAD decision, cpuflpr main.c line 337 (identical copy at line 479):
voice_detected = (frame_energy > 1000) && (zero_crossings > 10) &&
(zero_crossings < 80). -/
def vad_decision (frame_energy zero_crossings : Int) : Bool :=
  decide (frame_energy > 1000) && decide (zero_crossings > 10) &&
    decide (zero_crossings < 80)

/-- One NLMS coefficient update of the AEC filter, cpuflpr main.c lines
516-523: update = (update_factor * far_end_value) / 256 (C truncated
division); aec_filter[k] += update (int16_t wrap); then the clamp,
first above at 8192 and then below at -8192. -/
def aec_coeff_update (c update_factor far_end_value : Int) : Int :=
  let update := Int.tdiv (update_factor * far_end_value) 256
  let c1 := to_int16 (c + update)
  if c1 > 8192 then 8192 else if c1 < -8192 then -8192 else c1

/-- C5: after each NLMS coefficient update the hard clamp leaves the
coefficient inside [-8192, 8192], for every previous coefficient value,
update factor and far-end sample, hence for any sequence of input frames. -/
theorem aec_coeff_update_clamped (c uf x : Int) :
    -8192 ≤ aec_coeff_update c uf x ∧ aec_coeff_update c uf x ≤ 8192 := by
  unfold aec_coeff_update
  dsimp only
  split
  · omega
  · split <;> omega

/-- C6: the VAD decision is exactly (energy > 1000 and 10 < zero-crossings
< 80); at energy 1200 with 20 zero crossings voice is declared present, and
at energy 1200 with 5 zero crossings it is not. -/
theorem vad_decision_characterization :
    (∀ e zc, vad_decision e zc = true ↔ (e > 1000 ∧ zc > 10 ∧ zc < 80)) ∧
    vad_decision 1200 20 = true ∧ vad_decision 1200 5 = false := by
  refine ⟨fun e zc => ?_, by decide, by decide⟩
  simp [vad_decision, and_assoc]

/-- C6 witness: the characterization applied at a concrete frame. -/
theorem vad_decision_characterization_witness : vad_decision 1300 15 = true :=
  (vad_decision_characterization.1 1300 15).mpr (by decide)

/-- C7: whenever the post-gating RMS is strictly positive, the clamped
fixed-point AGC gain lies in [64, 512]. -/
theorem agc_gain_in_range (rms : Int) (h : 0 < rms) :
    64 ≤ agc_gain rms ∧ agc_gain rms ≤ 512 := by
  unfold agc_gain
  rw [if_pos h]
  dsimp only
  split
  · omega
  · split <;> omega

/-- C7 witness: the bound instantiated at rms = 100. -/
theorem agc_gain_in_range_witness :
    0 < (100 : Int) ∧ 64 ≤ agc_gain 100 ∧ agc_gain 100 ≤ 512 :=
  ⟨by decide, agc_gain_in_range 100 (by decide)⟩

/-!  Compute-core (cpuflpr) receive handler and dispatcher. -/

/-- The static state of the compute core touched by the receive handler and
the audio pipeline: current_workload, total_work_cycles, work_iterations
(cpuflpr main.c lines 69-71) together with the static AEC buffers aec_filter
and far_end_buffer (256 entries each, cpuflpr main.c lines 387-388). -/
structure FlprState where
  current_workload : Nat
  total_work_cycles : Nat
  work_iterations : Nat
  aec_filter : List Int
  far_end_buffer : List Int
deriving DecidableEq

/-- Receive handler of the compute core, cpuflpr main.c lines 1180-1196.
The handler receives the message type and workload byte of the buffer and
the buffer length; the length is only printed, never examined.  On a
SET_WORKLOAD message (type 2) it stores the workload byte and zeroes the
two accumulators; every other type is merely logged. -/
def ep_recv_flpr (msg_type msg_workload : Nat) (len : Nat) (s : FlprState) :
    FlprState :=
  if msg_type = 2 then
    { s with current_workload := msg_workload,
             total_work_cycles := 0,
             work_iterations := 0 }
  else s

/-- The branch of the execute_workload switch that runs for a given
workload value (cpuflpr main.c lines 1138-1172).  The WORKLOAD_IDLE case
and the default case share one branch that sleeps 100 ms and returns 0
cycles. -/
inductive DispatchTarget where
  | matrixMult
  | sorting
  | fftSim
  | cryptoSim
  | mixed
  | audioPipeline
  | audioPipelineAec
  | proximityVad
  | chestResonance
  | clothingRustle
  | spatialNoiseCancel
  | windNoiseReduction
  | necklaceFull
  | idleSleep100Return0
deriving DecidableEq

/-- Dispatch of the execute_workload switch on the current workload value,
cpuflpr main.c lines 1138-1172, translated case by case; values 0 and
everything above 13 fall into the shared IDLE/default branch. -/
def execute_workload (w : Nat) : DispatchTarget :=
  if w = 1 then .matrixMult
  else if w = 2 then .sorting
  else if w = 3 then .fftSim
  else if w = 4 then .cryptoSim
  else if w = 5 then .mixed
  else if w = 6 then .audioPipeline
  else if w = 7 then .audioPipelineAec
  else if w = 8 then .proximityVad
  else if w = 9 then .chestResonance
  else if w = 10 then .clothingRustle
  else if w = 11 then .spatialNoiseCancel
  else if w = 12 then .windNoiseReduction
  else if w = 13 then .necklaceFull
  else .idleSleep100Return0

/-!  Application-core (cpuapp) receive handler. -/

/-- The static state of the application core written by its receive handler:
riscv_mips, riscv_workload, riscv_cpu_pct, audio_frames_received,
audio_voice_detected (cpuapp main.c lines 89-93). -/
structure AppState where
  riscv_mips : Nat
  riscv_workload : Nat
  riscv_cpu_pct : Nat
  audio_frames_received : Nat
  audio_voice_detected : Nat
deriving DecidableEq

/-- Receive handler of the application core, cpuapp main.c lines 220-262.
Arguments carry the message type, the stats fields read through the
stats_data overlay, the frame_energy word of an audio message, and the
buffer length; the length is only printed, never examined.  Type 1 stores
the remote stats; type 4 counts the frame and, when frame_energy > 1000,
counts a voice detection; other types fall through. -/
def ep_recv_app (msg_type mips wl cpu frame_energy : Nat) (len : Nat)
    (s : AppState) : AppState :=
  if msg_type = 1 then
    { s with riscv_mips := mips, riscv_workload := wl, riscv_cpu_pct := cpu }
  else if msg_type = 4 then
    { s with audio_frames_received := s.audio_frames_received + 1,
             audio_voice_detected :=
               if frame_energy > 1000 then s.audio_voice_detected + 1
               else s.audio_voice_detected }
  else s

/-!  Telemetry formulas of the stats thread, cpuflpr main.c lines 1217-1236.
All quantities follow the C types: cycle_delta and instructions are
uint64_t, mips and cpu_pct are uint32_t. -/

/-- instructions = (cycle_delta * 10) / 15 computed in uint64_t. -/
def stats_instructions (cycle_delta : Nat) : Nat :=
  cycle_delta * 10 % 2 ^ 64 / 15

/-- mips = instructions / 1000000, narrowed to uint32_t by the assignment. -/
def stats_mips (cycle_delta : Nat) : Nat :=
  stats_instructions cycle_delta / 1000000 % 2 ^ 32

/-- cpu_pct = (mips * 100) / 128 in uint32_t arithmetic (the product wraps
modulo 2^32), then capped at 100. -/
def stats_cpu_pct (mips : Nat) : Nat :=
  let p := mips * 100 % 2 ^ 32 / 128
  if p > 100 then 100 else p

/-!  AudioData message construction. -/

/-- The five 32-bit payload words of struct ipc_message together with its
header bytes, each word kept as an explicit field. -/
structure IpcMsgWords where
  type : Nat
  workload : Nat
  reserved : Nat
  data0 : Nat
  data1 : Nat
  data2 : Nat
  data3 : Nat
  data4 : Nat
deriving DecidableEq

/-- Packing of two int16_t samples into one payload word, cpuflpr main.c
line 352: (a & 0xFFFF) | ((b & 0xFFFF) << 16). -/
def pack_samples (a b : Int) : Nat := to_u16 a + to_u16 b * 65536

/-- The AudioData message built by the non-AEC audio pipeline, cpuflpr
main.c lines 345-356: memset to zero, then type, workload and payload words
0 to 3 are assigned; word 4 keeps its memset value 0. -/
def audio_pipeline_msg (p0 p1 p2 p3 : Int) (frame_energy zero_crossings : Nat) :
    IpcMsgWords :=
  { type := 4, workload := 6, reserved := 0,
    data0 := pack_samples p0 p1,
    data1 := pack_samples p2 p3,
    data2 := frame_energy,
    data3 := zero_crossings,
    data4 := 0 }

/-- The AudioData message built by the AEC variant, cpuflpr main.c lines
562-571: same layout, but word 4 carries the double-talk flag. -/
def audio_pipeline_aec_msg (f0 f1 f2 f3 : Int)
    (frame_energy zero_crossings : Nat) (double_talk : Bool) : IpcMsgWords :=
  { type := 4, workload := 7, reserved := 0,
    data0 := pack_samples f0 f1,
    data1 := pack_samples f2 f3,
    data2 := frame_energy,
    data3 := zero_crossings,
    data4 := if double_talk then 1 else 0 }

/-!  Claim theorems C1-C4 and C8-C10. -/

/-- C1 evidence: the stats overlay does NOT fit the payload.  struct
stats_data is 24 bytes against the 20-byte data[] payload, and its cpu_pct
field, at payload offset 20, ends at message offset 28, four bytes past the
24-byte struct ipc_message. -/
theorem stats_overlay_overflows_payload :
    ipc_data_size < stats_data_size ∧
    ipc_message_size < ipc_data_offset + stats_cpu_pct_offset + 4 := by
  decide

/-- C2 counterexample: a received SET_WORKLOAD buffer of length 12 (not 24)
is not discarded; the handler changes the workload and zeroes the
accumulators. -/
theorem ep_recv_flpr_short_buffer_changes_state :
    (12 : Nat) ≠ 24 ∧
    ep_recv_flpr 2 3 12 ⟨0, 100, 7, List.replicate 256 0, List.replicate 256 0⟩ ≠
      ⟨0, 100, 7, List.replicate 256 0, List.replicate 256 0⟩ := by
  refine ⟨by decide, fun h => ?_⟩
  exact absurd (congrArg FlprState.total_work_cycles h) (by decide)

/-- C2 amended: neither receive handler inspects the buffer length at all;
the resulting state is the same for every length, and in particular no
length yields a MalformedMessage failure. -/
theorem ep_recv_ignores_length :
    (∀ t w la lb s, ep_recv_flpr t w la s = ep_recv_flpr t w lb s) ∧
    (∀ t m wl c e la lb s, ep_recv_app t m wl c e la s = ep_recv_app t m wl c e lb s) :=
  ⟨fun _ _ _ _ _ => rfl, fun _ _ _ _ _ _ _ _ => rfl⟩

/-- C3 counterexample: a SET_WORKLOAD message carrying the currently active
kind (5) does not leave the accumulators unchanged; they are zeroed. -/
theorem ep_recv_flpr_same_kind_resets :
    ep_recv_flpr 2 5 24 ⟨5, 100, 7, List.replicate 256 0, List.replicate 256 0⟩ ≠
      ⟨5, 100, 7, List.replicate 256 0, List.replicate 256 0⟩ := by
  intro h
  exact absurd (congrArg FlprState.total_work_cycles h) (by decide)

/-- C3 amended: every received SET_WORKLOAD message resets both
accumulators to zero and installs the received kind, unconditionally, in
particular also when the received kind equals the active kind (initial
state below has current_workload = w0, with w0 arbitrary, covering w0 = w). -/
theorem ep_recv_flpr_reset_unconditional :
    ∀ w len w0 c i f g,
      (ep_recv_flpr 2 w len ⟨w0, c, i, f, g⟩).total_work_cycles = 0 ∧
      (ep_recv_flpr 2 w len ⟨w0, c, i, f, g⟩).work_iterations = 0 ∧
      (ep_recv_flpr 2 w len ⟨w0, c, i, f, g⟩).current_workload = w :=
  fun _ _ _ _ _ _ _ => ⟨rfl, rfl, rfl⟩

/-- C4 counterexample: with the AEC workload (7) active and a nonzero
filter, a transition away from AEC (SET_WORKLOAD 0) leaves the 256 filter
coefficients untouched instead of resetting them to zero. -/
theorem ep_recv_flpr_transition_keeps_filter :
    (ep_recv_flpr 2 0 24
        ⟨7, 100, 7, List.replicate 256 5, List.replicate 256 0⟩).aec_filter =
      List.replicate 256 5 ∧
    List.replicate 256 (5 : Int) ≠ List.replicate 256 0 := by
  refine ⟨rfl, by decide⟩

/-- C4 amended: the receive handler, and hence the dispatcher transition it
performs, never writes the AEC filter state: for every message type,
workload byte and length, the 256 coefficients and the reference history
are preserved; the filter state is zero only from static initialisation at
boot and is never reset per frame nor on a workload switch. -/
theorem ep_recv_flpr_preserves_aec_state :
    ∀ t w len s, (ep_recv_flpr t w len s).aec_filter = s.aec_filter ∧
      (ep_recv_flpr t w len s).far_end_buffer = s.far_end_buffer := by
  intro t w len s
  unfold ep_recv_flpr
  split <;> exact ⟨rfl, rfl⟩

/-- C8 counterexample: the uint32_t product mips * 100 wraps, so cpuPercent
is not 100 for every mips above 1280: the cycle delta 64424509500000
produces mips = 42949673 > 1280, yet cpu_pct evaluates to 0. -/
theorem stats_cpu_pct_wraps :
    stats_mips 64424509500000 = 42949673 ∧
    1280 < stats_mips 64424509500000 ∧
    stats_cpu_pct (stats_mips 64424509500000) ≠ 100 ∧
    stats_cpu_pct (stats_mips 64424509500000) = 0 := by
  refine ⟨by decide, by decide, by decide, by decide⟩

/-- C8 amended: estimatedMips at cycleDelta 15000000 is 10; cpuPercent at
mips 10 on the 128 MHz core is 7; and cpuPercent is 100 for every computed
mips above 1280 whose product with 100 does not wrap the 32-bit multiply
(mips * 100 < 2^32); beyond that bound the product wraps and the cap can be
missed. -/
theorem stats_telemetry_formulas :
    stats_mips 15000000 = 10 ∧ stats_cpu_pct 10 = 7 ∧
    ∀ m, 1280 < m → m * 100 < 2 ^ 32 → stats_cpu_pct m = 100 := by
  refine ⟨by decide, by decide, fun m hm hw => ?_⟩
  have hmod : m * 100 % 2 ^ 32 = m * 100 := Nat.mod_eq_of_lt hw
  have h1 : 128100 ≤ m * 100 := by omega
  have h2 : 1000 ≤ m * 100 / 128 :=
    calc 1000 = 128100 / 128 := by decide
    _ ≤ m * 100 / 128 := Nat.div_le_div_right h1
  simp only [stats_cpu_pct, hmod]
  rw [if_pos (by omega)]

/-- C8 witness: the capped branch of the amended formula at mips = 2000. -/
theorem stats_telemetry_formulas_witness :
    1280 < 2000 ∧ 2000 * 100 < 2 ^ 32 ∧ stats_cpu_pct 2000 = 100 :=
  ⟨by decide, by decide,
    stats_telemetry_formulas.2.2 2000 (by decide) (by decide)⟩

/-- C9: the receive handler stores any workload byte unvalidated, and every
workload value of 14 and above takes the default branch of the dispatch
switch, behaving exactly as WORKLOAD_IDLE (value 0): sleep 100 ms and
return 0 cycles. -/
theorem workload_byte_unvalidated :
    (∀ w len s, (ep_recv_flpr 2 w len s).current_workload = w) ∧
    (∀ w, 14 ≤ w →
      execute_workload w = DispatchTarget.idleSleep100Return0 ∧
      execute_workload w = execute_workload 0) := by
  refine ⟨fun _ _ _ => rfl, fun w hw => ?_⟩
  have hred : execute_workload w = DispatchTarget.idleSleep100Return0 := by
    unfold execute_workload
    repeat rw [if_neg (by omega)]
  exact ⟨hred, hred.trans (by decide : execute_workload 0 =
    DispatchTarget.idleSleep100Return0).symm⟩

/-- C9 witness: the out-of-range workload byte 200. -/
theorem workload_byte_unvalidated_witness :
    14 ≤ 200 ∧ execute_workload 200 = DispatchTarget.idleSleep100Return0 ∧
      execute_workload 200 = execute_workload 0 :=
  ⟨by decide, workload_byte_unvalidated.2 200 (by decide)⟩

/-- C10: every AudioData message emitted by the non-AEC audio pipeline
carries 0 in payload word 4 (it is zero-initialised and only words 0 to 3
are written), while the AEC variant writes the double-talk flag there. -/
theorem audio_pipeline_word4 :
    (∀ p0 p1 p2 p3 e zc, (audio_pipeline_msg p0 p1 p2 p3 e zc).data4 = 0) ∧
    (∀ f0 f1 f2 f3 e zc dt,
      (audio_pipeline_aec_msg f0 f1 f2 f3 e zc dt).data4 =
        if dt then 1 else 0) :=
  ⟨fun _ _ _ _ _ _ => rfl, fun _ _ _ _ _ _ _ => rfl⟩

end NrfDualCore
